import Mathlib

/-!
Shallow embedding of the imdb-rs search service (src/api/scoring.rs,
src/api/handlers.rs, src/api/types.rs, src/api/utils.rs, src/indexer.rs).

Modelling conventions:
* Rust `String`/`&str` values are embedded as `List Char` (`Str`), so that all
  string operations (lowercasing, trimming, splitting, substring tests) are
  executable, decidable Lean functions mirroring the Rust std operations on
  ASCII data (Rust's Unicode case folding and `char::is_alphanumeric` agree
  with `Char.toLower` / `Char.isAlphanum` on the ASCII inputs of the claims).
* `f32`/`f64` arithmetic is embedded over `ℝ` (stored catalogue values, which
  are short decimals, over `ℚ` where a decidable representation helps);
  `ln`/`ln_1p` become `Real.log`.  Rounding error of the binary floats is not
  modelled; `i64` is embedded as `ℤ` (overflow not modelled).
* `Utc::now().year()` in the scorer is an ambient input and is passed
  explicitly as a `current_year : ℤ` argument.
-/

namespace ImdbRs

/-- Rust strings, embedded as lists of characters. -/
abbrev Str := List Char

/-- The IMDb "no value" sentinel `\N` (Rust literal `"\\N"`). -/
def sentinel : Str := "\\N".toList

/-- Rust `str::to_lowercase` (ASCII-faithful). -/
def toLowerStr (s : Str) : Str := s.map Char.toLower

/-- Rust `str::trim`: strip leading and trailing whitespace. -/
def trimStr (s : Str) : Str :=
  ((s.dropWhile Char.isWhitespace).reverse.dropWhile Char.isWhitespace).reverse

/-- Rust `str::split(pred)`: split into (possibly empty) fields at every
separator character, as in `"a,,b".split(',') = ["a","","b"]`. -/
def splitOnPred (p : Char → Bool) (s : Str) : List Str :=
  s.foldr
    (fun c acc =>
      if p c then [] :: acc
      else
        match acc with
        | [] => [[c]]
        | w :: ws => (c :: w) :: ws)
    [[]]

/-- Rust `str::contains(needle)`: substring test. -/
def containsSub (haystack needle : Str) : Bool :=
  haystack.tails.any (fun t => needle.isPrefixOf t)

/-- `scoring.rs` lines 22-25: token-aware word containment — split the
haystack on non-alphanumeric characters and look for a token equal to the
needle. -/
def containsWordB (haystack needle : Str) : Bool :=
  (splitOnPred (fun c => !c.isAlphanum) haystack).any (fun w => w == needle)

/-- `types.rs`: `TitleSearchResult`, the candidate record seen by the scorer
(display/serialization-only fields `score`, `sort_value` omitted; stored
decimal ratings embedded as `ℚ`). -/
structure TitleSearchResult where
  tconst : Str := []
  primary_title : Str := []
  original_title : Option Str := none
  title_type : Option Str := none
  start_year : Option ℤ := none
  end_year : Option ℤ := none
  genres : Option (List Str) := none
  average_rating : Option ℚ := none
  num_votes : Option ℤ := none
  deriving DecidableEq, Repr

/-- `scoring.rs` line 18: the normalized needle `q.trim().to_lowercase()`. -/
def needleOf (q : Str) : Str := toLowerStr (trimStr q)

/-- `scoring.rs` lines 11-52, steps 1-2: compressed base signal together with
the title-match bonus, returned as a pair `(base, title_bonus)`.  In the exact
match branch the compressed base `ln(1 + max(raw, 0))` is floored at 4.5
(short needle) / 3.8 (long needle) and the bonus is 7.0 / 6.0. -/
noncomputable def baseAndBonus (base_score : ℝ) (result : TitleSearchResult)
    (query_lower : Option Str) : ℝ × ℝ :=
  let base0 : ℝ := Real.log (max base_score 0 + 1)
  match query_lower with
  | none => (base0, 0)
  | some q =>
    let needle := needleOf q
    if needle = [] then (base0, 0)
    else
      let haystack := toLowerStr result.primary_title
      let contains_word := containsWordB haystack needle
      let is_exact := haystack == needle
      let isPref := needle.isPrefixOf haystack
      let is_substr := containsSub haystack needle
      let is_short := needle.length ≤ 3
      if is_exact then
        (max base0 (if is_short then 4.5 else 3.8), if is_short then 7.0 else 6.0)
      else if is_short && contains_word then (base0, 1.2)
      else if isPref then (base0, 0.9)
      else if is_substr && !is_short then (base0, 0.4)
      else if is_short then (base0, -0.8)
      else (base0, -0.3)

/-- `scoring.rs` line 59: the fixed global-average rating constant. -/
def GLOBAL_AVG : ℝ := 6.7

/-- `scoring.rs` line 60: the Bayesian prior strength. -/
def M_PRIOR : ℝ := 12000

/-- `scoring.rs` lines 56-65: Bayesian weighted rating
`wr = (v/(v+m))*R + (m/(v+m))*C`, with `R = rating.unwrap_or(5.0)` and
`C = GLOBAL_AVG` when there are no votes. -/
noncomputable def weightedRating (result : TitleSearchResult) : ℝ :=
  let rating : ℝ := ((result.average_rating.getD 5 : ℚ) : ℝ)
  let votes : ℝ := ((result.num_votes.getD 0 : ℤ) : ℝ)
  if 0 < votes then
    (votes / (votes + M_PRIOR)) * rating + (M_PRIOR / (votes + M_PRIOR)) * GLOBAL_AVG
  else GLOBAL_AVG

/-- `scoring.rs` line 67: map the shrunk rating to `~[0..3]`. -/
noncomputable def ratingComponent (result : TitleSearchResult) : ℝ :=
  (weightedRating result / 10) * 3

/-- `scoring.rs` lines 70-75: log-normalized popularity, `~[0..2.2]` for vote
counts up to the `VMAX = 2_000_000` reference ceiling. -/
noncomputable def popularityComponent (result : TitleSearchResult) : ℝ :=
  let votes : ℝ := ((result.num_votes.getD 0 : ℤ) : ℝ)
  if 0 < votes then (Real.log (votes + 1) / Real.log (2000000 + 1)) * 2.2 else 0

/-- `scoring.rs` lines 79-83: the series kinds treated as "still running" when
they have no end year. -/
def isSeriesKind (title_type : Option Str) : Bool :=
  title_type == some "tvSeries".toList || title_type == some "tvMiniSeries".toList ||
    title_type == some "tvEpisode".toList

/-- `scoring.rs` lines 78-91: the year used for the recency signal; open-ended
series read the ambient clock year. -/
def recencyYear (result : TitleSearchResult) (current_year : ℤ) : ℤ :=
  if isSeriesKind result.title_type && result.end_year == none then current_year
  else
    match result.end_year with
    | some y => y
    | none => match result.start_year with
      | some y => y
      | none => 0

/-- `scoring.rs` lines 92-97: gentle recency tilt, clamped to `[-0.10, 0.15]`
and centred on 2012. -/
noncomputable def yearComponent (result : TitleSearchResult) (current_year : ℤ) : ℝ :=
  let ry := recencyYear result current_year
  if ry = 0 then 0
  else min (max (((ry : ℝ) - 2012) / 90) (-0.10)) 0.15

/-- `scoring.rs` lines 102-111: cold-start dampening factor, a function of the
vote count alone. -/
def coldStartFactor (votes : ℤ) : ℝ :=
  if votes < 50 then 0.20
  else if votes < 500 then 0.50
  else if votes < 2000 then 0.80
  else 1

/-- `scoring.rs` `compute_title_relevance_score`: combine the components
(line 100), dampen cold starts, floor the multiplier at 0.05 (line 114) and
scale the compressed base by it (line 116). -/
noncomputable def compute_title_relevance_score (base_score : ℝ)
    (result : TitleSearchResult) (query_lower : Option Str)
    (current_year : ℤ) : ℝ :=
  let bb := baseAndBonus base_score result query_lower
  let combined := 1 + ratingComponent result + popularityComponent result +
    yearComponent result current_year + bb.2
  let combined := combined * coldStartFactor (result.num_votes.getD 0)
  let combined := max combined 0.05
  bb.1 * combined

/-! ## Index construction (`src/indexer.rs`) -/

/-- Decimal digit run to a natural number (helper for integer parsing). -/
def digitsToNat (l : Str) : Option ℕ :=
  if l ≠ [] ∧ l.all Char.isDigit then
    some (l.foldl (fun a c => a * 10 + (c.toNat - '0'.toNat)) 0)
  else none

/-- Rust `str::parse::<i64>()` on decimal input (optional sign, all digits;
`i64` overflow not modelled). -/
def parseIntStr (s : Str) : Option ℤ :=
  match s with
  | '+' :: rest => (digitsToNat rest).map (fun n => (n : ℤ))
  | '-' :: rest => (digitsToNat rest).map (fun n => -(n : ℤ))
  | _ => (digitsToNat s).map (fun n => (n : ℤ))

/-- `indexer.rs` `parse_i64`: `None` for a missing column, an empty value or
the `\N` sentinel, otherwise the parsed integer. -/
def parse_i64 (value : Option Str) : Option ℤ :=
  value.bind (fun v => if v = [] ∨ v = sentinel then none else parseIntStr v)

/-- One document of the title index, with exactly the fields the builder in
`build_title_index_sync` populates (the schema of this builder has no
`endYear` field). -/
structure TitleDoc where
  tconst : Str
  title_type : Str
  primary_title : Str
  original_title : Option Str
  start_year : Option ℤ
  genres : List Str
  average_rating : Option ℚ
  num_votes : Option ℤ
  search_titles : List Str
  deriving DecidableEq, Repr

/-- One document of the name index, with the fields `build_name_index_sync`
populates (optional fields are present only under the builder's guards). -/
structure NameDoc where
  nconst : Str
  primary_name : Str
  primary_name_search : List Str
  birth_year : Option ℤ
  death_year : Option ℤ
  primary_profession : Option Str
  known_for_titles : Option Str
  deriving DecidableEq, Repr

/-- `indexer.rs` lines 410-421: walk the alternate titles, keeping one
occurrence of each title not already in the `seen` set (`HashSet<String>`
membership, i.e. case-sensitive character-exact equality). -/
def dedupAkas (seen : List Str) : List Str → List Str
  | [] => []
  | aka :: rest =>
    if aka ∈ seen then dedupAkas seen rest
    else aka :: dedupAkas (aka :: seen) rest

/-- `indexer.rs` lines 366-448, the per-row body of `build_title_index_sync`:
build one title document, or `none` when the row is skipped.  The three
cross-reference tables (ratings, alternate titles, principal-cast names) are
passed as lookup functions.  Rows are `csv` records, so `row[i]?` models
`record.get(i)` of a flexible tab-separated row. -/
def buildTitleDoc (ratings : Str → Option (ℚ × ℤ))
    (akas : Str → Option (List Str)) (principals : Str → Option (List Str))
    (row : List Str) : Option TitleDoc :=
  match row[0]? with
  | none => none
  | some tconst =>
    if tconst = [] ∨ tconst = sentinel then none
    else
      let title_type := row[1]?.getD []
      match row[2]? with
      | none => none
      | some primary_title =>
        let original_title := row[3]?.bind
          (fun v => if v ≠ sentinel ∧ v ≠ [] then some v else none)
        let start_year := parse_i64 (row[5]?)
        let genres := ((row[8]?).map
          (fun v => (splitOnPred (fun c => c == ',') v).filter
            (fun s => s ≠ sentinel ∧ s ≠ []))).getD []
        let originalPart : List Str :=
          match original_title with
          | some o => [o]
          | none => []
        let st := primary_title :: originalPart
        let st := match akas tconst with
          | some akaTitles => st ++ dedupAkas (primary_title :: originalPart) akaTitles
          | none => st
        let st := st ++ ((principals tconst).getD [])
        some { tconst := tconst, title_type := title_type,
               primary_title := primary_title, original_title := original_title,
               start_year := start_year, genres := genres,
               average_rating := (ratings tconst).map Prod.fst,
               num_votes := (ratings tconst).map Prod.snd,
               search_titles := st }

/-- `indexer.rs` lines 488-535, the per-row body of `build_name_index_sync`:
build one name document, or `none` when the row is skipped. -/
def buildNameDoc (row : List Str) : Option NameDoc :=
  match row[0]? with
  | none => none
  | some nconst =>
    if nconst = [] ∨ nconst = sentinel then none
    else
      let primary_name := row[1]?.getD []
      if primary_name = [] then none
      else
        let birth_year := parse_i64 (row[2]?)
        let death_year := parse_i64 (row[3]?)
        let profession := row[4]?.getD []
        let known_for := row[5]?.getD []
        some { nconst := nconst, primary_name := primary_name,
               primary_name_search :=
                 primary_name :: (if profession = [] then [] else [profession]),
               birth_year := birth_year, death_year := death_year,
               primary_profession := if profession = [] then none else some profession,
               known_for_titles := if known_for = [] then none else some known_for }

/-- The full title index build: the `for result in reader.records()` loop with
its `continue`-on-skip discipline is a `filterMap` over the data rows. -/
def build_title_index (ratings : Str → Option (ℚ × ℤ))
    (akas principals : Str → Option (List Str)) (rows : List (List Str)) :
    List TitleDoc :=
  rows.filterMap (buildTitleDoc ratings akas principals)

/-- The full name index build. -/
def build_name_index (rows : List (List Str)) : List NameDoc :=
  rows.filterMap buildNameDoc

/-! ## Query model (`src/api/handlers.rs`)

The tantivy engine is modelled by a syntax of composite queries together with
boolean satisfaction semantics against a `TitleDoc`:
* a `TermQuery` on a raw `STRING` field (`tconst`, `titleType`) matches by
  exact equality with the stored value;
* a `TermQuery` on the tokenized `genres` field matches when the term occurs
  among the lowercased alphanumeric tokens of the stored genre values (the
  default tantivy tokenizer);
* a `RangeQuery` is an inclusive range on a numeric fast field, with `none`
  bounds unbounded (`Bound::Unbounded`);
* the free-text query produced by the engine's query parser is opaque and its
  satisfaction is an uninterpreted parameter `textMatch`;
* a `BooleanQuery` requires every `Must` clause, and when there is no `Must`
  clause at least one `Should` clause. -/

inductive TField where
  | tconst | titleType | primaryTitle | originalTitle | genres | searchTitles
  | startYear | endYear | averageRating | numVotes
  deriving DecidableEq, Repr

inductive NField where
  | nconst | primaryName | primaryNameSearch | birthYear | deathYear
  | primaryProfession | knownForTitles
  deriving DecidableEq, Repr

inductive TOccur where
  | must | should
  deriving DecidableEq, Repr

inductive Query (F : Type) where
  | term (f : F) (v : Str)
  | rangeI (f : F) (lo hi : Option ℤ)
  | rangeF (f : F) (lo hi : Option ℚ)
  | all
  | text (s : Str)
  | boolean (clauses : List (TOccur × Query F))
  deriving Repr

/-- The per-collection atom semantics of the engine adapter: how one document
answers a term query, a numeric range query, or a parsed free-text query. -/
structure Matcher (F : Type) (Doc : Type) where
  term : Doc → F → Str → Bool
  rangeI : Doc → F → Option ℤ → Option ℤ → Bool
  rangeF : Doc → F → Option ℚ → Option ℚ → Bool
  text : Str → Doc → Bool

/-- Lowercased alphanumeric tokens of the stored genre values (default
tantivy tokenizer applied to each `add_text(genres, …)` value). -/
def genreTokens (d : TitleDoc) : List Str :=
  d.genres.flatMap
    (fun g => (splitOnPred (fun c => !c.isAlphanum) (toLowerStr g)).filter (· ≠ []))

/-- Inclusive range matching on a numeric fast field, with `none` bounds
unbounded (a document without the field never matches a range query on it). -/
def inRangeOpt {α : Type} [LinearOrder α] (field : Option α) (lo hi : Option α) : Bool :=
  match field with
  | none => false
  | some x => (match lo with | none => true | some l => decide (l ≤ x)) &&
      (match hi with | none => true | some h => decide (x ≤ h))

/-- Term-query matching per title-index field (see the query-model conventions
above). -/
def termMatches (d : TitleDoc) (f : TField) (v : Str) : Bool :=
  match f with
  | .tconst => d.tconst == v
  | .titleType => d.title_type == v
  | .genres => genreTokens d |>.contains v
  | _ => false

/-- The engine-adapter semantics for the title index; `tm` is the
uninterpreted semantics of parsed free-text queries. -/
def titleMatcher (tm : Str → TitleDoc → Bool) : Matcher TField TitleDoc where
  term := termMatches
  rangeI d f lo hi :=
    inRangeOpt
      (match f with
       | .startYear => d.start_year
       | .numVotes => d.num_votes
       | _ => none) lo hi
  rangeF d f lo hi :=
    inRangeOpt (match f with | .averageRating => d.average_rating | _ => none) lo hi
  text := tm

/-- Lowercased alphanumeric tokens of the stored comma-joined profession
string (default tantivy tokenizer on the `primaryProfession` text field). -/
def professionTokens (d : NameDoc) : List Str :=
  match d.primary_profession with
  | none => []
  | some s => (splitOnPred (fun c => !c.isAlphanum) (toLowerStr s)).filter (· ≠ [])

/-- Term-query matching per name-index field. -/
def nameTermMatches (d : NameDoc) (f : NField) (v : Str) : Bool :=
  match f with
  | .nconst => d.nconst == v
  | .primaryProfession => professionTokens d |>.contains v
  | _ => false

/-- The engine-adapter semantics for the name index. -/
def nameMatcher (tm : Str → NameDoc → Bool) : Matcher NField NameDoc where
  term := nameTermMatches
  rangeI d f lo hi :=
    inRangeOpt
      (match f with
       | .birthYear => d.birth_year
       | .deathYear => d.death_year
       | _ => none) lo hi
  rangeF _ _ _ _ := false
  text := tm

mutual

/-- Satisfaction of a composite query by a document, given the collection's
atom semantics `m`.  A `BooleanQuery` requires every `Must` clause, and when
there is no `Must` clause at least one `Should` clause. -/
def satisfies {F : Type} {Doc : Type} (m : Matcher F Doc) (d : Doc) :
    Query F → Bool
  | .term f v => m.term d f v
  | .rangeI f lo hi => m.rangeI d f lo hi
  | .rangeF f lo hi => m.rangeF d f lo hi
  | .all => true
  | .text s => m.text s d
  | .boolean clauses =>
    satMusts m d clauses &&
      (clauses.any (fun c => c.1 == TOccur.must) || satShoulds m d clauses)

/-- Every `Must` clause of the list is satisfied. -/
def satMusts {F : Type} {Doc : Type} (m : Matcher F Doc) (d : Doc) :
    List (TOccur × Query F) → Bool
  | [] => true
  | (o, q) :: rest =>
    (if o == TOccur.must then satisfies m d q else true) && satMusts m d rest

/-- Some `Should` clause of the list is satisfied. -/
def satShoulds {F : Type} {Doc : Type} (m : Matcher F Doc) (d : Doc) :
    List (TOccur × Query F) → Bool
  | [] => false
  | (o, q) :: rest =>
    (o == TOccur.should && satisfies m d q) || satShoulds m d rest

end

/-- `types.rs`: `TitleSearchParams` (the deserialized request). -/
structure TitleSearchParams where
  query : Option Str := none
  limit : Option ℕ := none
  title_type : Option Str := none
  start_year_min : Option ℤ := none
  start_year_max : Option ℤ := none
  end_year_min : Option ℤ := none
  end_year_max : Option ℤ := none
  min_rating : Option ℚ := none
  max_rating : Option ℚ := none
  min_votes : Option ℤ := none
  max_votes : Option ℤ := none
  genres : List Str := []
  deriving Repr

/-- `handlers.rs` lines 33-37: the requested title types — the explicit
non-empty `title_type` parameter, or the `[movie, tvSeries]` default. -/
def titleTypesOf (p : TitleSearchParams) : List Str :=
  match p.title_type with
  | some v => if v ≠ [] then [v] else ["movie".toList, "tvSeries".toList]
  | none => ["movie".toList, "tvSeries".toList]

/-- `handlers.rs` lines 54-160: the clause list of `search_titles`.  Every
pushed clause is `Occur::Must`; a multi-valued title-type filter becomes one
required `BooleanQuery` of `Should` term clauses, while each non-empty genre
value is pushed as its own required term clause. -/
def composeTitleClauses (p : TitleSearchParams) : List (TOccur × Query TField) :=
  let query_text := trimStr (p.query.getD [])
  let textClauses : List (TOccur × Query TField) :=
    if query_text ≠ [] then [(.must, .text query_text)] else []
  let title_types := titleTypesOf p
  let typeClauses : List (TOccur × Query TField) :=
    if title_types.length = 1 then
      [(.must, .term .titleType (title_types.headD []))]
    else
      let shoulds := title_types.map
        (fun v => ((TOccur.should, Query.term TField.titleType v)))
      if shoulds.isEmpty then [] else [(.must, .boolean shoulds)]
  let year_min := p.start_year_min.getD 1980
  let startYearClauses : List (TOccur × Query TField) :=
    if year_min ≠ 0 ∨ p.start_year_max.isSome then
      [(.must, .rangeI .startYear (some year_min) p.start_year_max)]
    else []
  let endYearClauses : List (TOccur × Query TField) :=
    if p.end_year_min.isSome ∨ p.end_year_max.isSome then
      [(.must, .rangeI .endYear p.end_year_min p.end_year_max)]
    else []
  let ratingClauses : List (TOccur × Query TField) :=
    if p.min_rating.isSome ∨ p.max_rating.isSome then
      [(.must, .rangeF .averageRating p.min_rating p.max_rating)]
    else []
  let votesClauses : List (TOccur × Query TField) :=
    if p.min_votes.isSome ∨ p.max_votes.isSome then
      [(.must, .rangeI .numVotes p.min_votes p.max_votes)]
    else []
  let genreClauses : List (TOccur × Query TField) :=
    (p.genres.filter (fun g => g ≠ [])).map (fun g => (.must, .term .genres g))
  textClauses ++ typeClauses ++ startYearClauses ++ endYearClauses ++
    ratingClauses ++ votesClauses ++ genreClauses

/-- `handlers.rs` lines 162-166 and 332-336: the `match clauses.len()`
dispatch — `AllQuery` for an empty clause list, the bare clause for a
singleton, a `BooleanQuery` otherwise. -/
def queryOfClauses {F : Type} : List (TOccur × Query F) → Query F
  | [] => .all
  | [c] => c.2
  | cs => .boolean cs

/-- `handlers.rs` lines 162-166: the composed title query. -/
def composeTitleQuery (p : TitleSearchParams) : Query TField :=
  queryOfClauses (composeTitleClauses p)

/-- `types.rs`: `NameSearchParams`. -/
structure NameSearchParams where
  query : Str := []
  limit : Option ℕ := none
  birth_year_min : Option ℤ := none
  birth_year_max : Option ℤ := none
  primary_profession : List Str := []
  deriving Repr

/-- `handlers.rs` lines 299-330: the clause list of `search_names` — again
every clause is `Occur::Must`, and each non-empty profession value is its own
required term clause. -/
def composeNameClauses (p : NameSearchParams) : List (TOccur × Query NField) :=
  let query_text := trimStr p.query
  let textClauses : List (TOccur × Query NField) :=
    if query_text ≠ [] then [(.must, .text query_text)] else []
  let birthClauses : List (TOccur × Query NField) :=
    if p.birth_year_min.isSome ∨ p.birth_year_max.isSome then
      [(.must, .rangeI .birthYear p.birth_year_min p.birth_year_max)]
    else []
  let professionClauses : List (TOccur × Query NField) :=
    (p.primary_profession.filter (fun v => v ≠ [])).map
      (fun v => (.must, .term .primaryProfession v))
  textClauses ++ birthClauses ++ professionClauses

/-- `handlers.rs` lines 332-336: the composed name query. -/
def composeNameQuery (p : NameSearchParams) : Query NField :=
  queryOfClauses (composeNameClauses p)

/-! ## By-id lookups (`src/api/handlers.rs` `get_title_by_id`,
`get_name_by_id`, with `src/api/utils.rs` document conversion) -/

/-- `types.rs` `ApiError`, abstracted to its three constructors
(`bad_request` → 400, `internal` → 500, `not_found` → 404). -/
inductive ApiErr where
  | badRequest (message : Str)
  | internal (message : Str)
  | notFound (message : Str)
  deriving DecidableEq, Repr

/-- `utils.rs` `document_to_title_result`: project the stored document into
the API record.  The builder always stores `tconst`, `titleType` and
`primaryTitle`; this index schema has no `endYear` field, so `end_year` reads
back as `none`; `get_all_text` yields `none` for an empty genre list.  (The
handler afterwards attaches the engine's lexical hit score, which is
engine-internal and not modelled.) -/
def document_to_title_result (d : TitleDoc) : TitleSearchResult :=
  { tconst := d.tconst, primary_title := d.primary_title,
    original_title := d.original_title,
    title_type := some d.title_type,
    start_year := d.start_year, end_year := none,
    genres := if d.genres = [] then none else some d.genres,
    average_rating := d.average_rating, num_votes := d.num_votes }

/-- `utils.rs` lines 79-104: split a stored comma-joined string into trimmed,
non-empty entries. -/
def splitCommaClean (s : Str) : List Str :=
  ((splitOnPred (fun c => c == ',') s).map trimStr).filter (· ≠ [])

/-- `types.rs`: `NameSearchResult` (serialization-only `score` omitted). -/
structure NameSearchResult where
  nconst : Str
  primary_name : Str
  birth_year : Option ℤ := none
  death_year : Option ℤ := none
  primary_profession : Option (List Str) := none
  known_for_titles : Option (List Str) := none
  deriving DecidableEq, Repr

/-- `utils.rs` `document_to_name_result`. -/
def document_to_name_result (d : NameDoc) : NameSearchResult :=
  { nconst := d.nconst, primary_name := d.primary_name,
    birth_year := d.birth_year, death_year := d.death_year,
    primary_profession := d.primary_profession.map splitCommaClean,
    known_for_titles := d.known_for_titles.map splitCommaClean }

/-- `handlers.rs` lines 355-379 `get_title_by_id`: run a `tconst` term query
with `TopDocs::with_limit(1)` against the index (modelled as the list of its
documents), convert the hit if any, and answer `not_found` otherwise. -/
def get_title_by_id (index : List TitleDoc) (tconst : Str) :
    Except ApiErr TitleSearchResult :=
  match (index.filter (fun d => termMatches d .tconst tconst)).take 1 with
  | [] => .error (.notFound "title not found".toList)
  | d :: _ => .ok (document_to_title_result d)

/-- `handlers.rs` lines 381-405 `get_name_by_id`. -/
def get_name_by_id (index : List NameDoc) (nconst : Str) :
    Except ApiErr NameSearchResult :=
  match (index.filter (fun d => nameTermMatches d .nconst nconst)).take 1 with
  | [] => .error (.notFound "name not found".toList)
  | d :: _ => .ok (document_to_name_result d)

/-! ## Helper lemmas about the relevance scorer -/

lemma log1p_nonneg (b : ℝ) : 0 ≤ Real.log (max b 0 + 1) :=
  Real.log_nonneg (by have := le_max_right b 0; linarith)

lemma log1p_pos {b : ℝ} (hb : 0 < b) : 0 < Real.log (max b 0 + 1) :=
  Real.log_pos (by have := le_max_left b 0; have := le_max_right b 0; linarith)

lemma baseAndBonus_none (b : ℝ) (r : TitleSearchResult) :
    baseAndBonus b r none = (Real.log (max b 0 + 1), 0) := rfl

/-- The exact-match branch of `baseAndBonus`. -/
lemma baseAndBonus_exact (b : ℝ) (r : TitleSearchResult) (q : Str)
    (hne : needleOf q ≠ [])
    (hex : toLowerStr r.primary_title = needleOf q) :
    baseAndBonus b r (some q) =
      (max (Real.log (max b 0 + 1)) (if (needleOf q).length ≤ 3 then 4.5 else 3.8),
       if (needleOf q).length ≤ 3 then 7.0 else 6.0) := by
  unfold baseAndBonus
  have hbeq : (toLowerStr r.primary_title == needleOf q) = true := by
    simp [hex]
  simp only [if_neg hne, hbeq, if_pos]

/-- The short-query word-match branch of `baseAndBonus`. -/
lemma baseAndBonus_word (b : ℝ) (r : TitleSearchResult) (q : Str)
    (hne : needleOf q ≠ [])
    (hnex : (toLowerStr r.primary_title == needleOf q) = false)
    (hshort : (needleOf q).length ≤ 3)
    (hword : containsWordB (toLowerStr r.primary_title) (needleOf q) = true) :
    baseAndBonus b r (some q) = (Real.log (max b 0 + 1), 1.2) := by
  unfold baseAndBonus
  simp only [if_neg hne, hnex, hword, hshort]
  simp

lemma baseAndBonus_fst_nonneg (b : ℝ) (r : TitleSearchResult) (q : Option Str) :
    0 ≤ (baseAndBonus b r q).1 := by
  have h0 := log1p_nonneg b
  unfold baseAndBonus
  cases q with
  | none => simpa using h0
  | some s =>
    simp only
    split_ifs <;> simp_all

lemma baseAndBonus_fst_pos {b : ℝ} (hb : 0 < b) (r : TitleSearchResult)
    (q : Option Str) : 0 < (baseAndBonus b r q).1 := by
  have h0 := log1p_pos hb
  unfold baseAndBonus
  cases q with
  | none => simpa using h0
  | some s =>
    simp only
    split_ifs <;> simp_all

lemma baseAndBonus_snd_ge (b : ℝ) (r : TitleSearchResult) (q : Option Str) :
    -0.8 ≤ (baseAndBonus b r q).2 := by
  unfold baseAndBonus
  cases q with
  | none => norm_num
  | some s =>
    simp only
    split_ifs <;> norm_num

/-- `wr` is at least the global average when the (defaulted) rating is. -/
lemma weightedRating_ge_global (r : TitleSearchResult)
    (h : (6.7 : ℝ) ≤ ((r.average_rating.getD 5 : ℚ) : ℝ)) :
    (6.7 : ℝ) ≤ weightedRating r := by
  unfold weightedRating GLOBAL_AVG M_PRIOR
  dsimp only
  split_ifs with hv
  · set v : ℝ := ((r.num_votes.getD 0 : ℤ) : ℝ) with hvdef
    have hs : (0:ℝ) < v + 12000 := by linarith
    have hcoef : 0 ≤ v / (v + 12000) := by positivity
    have h1 : v / (v + 12000) * 6.7 ≤
        v / (v + 12000) * ((r.average_rating.getD 5 : ℚ) : ℝ) :=
      mul_le_mul_of_nonneg_left h hcoef
    have h2 : v / (v + 12000) + 12000 / (v + 12000) = 1 := by
      field_simp
    nlinarith [h1, h2]
  · norm_num

lemma weightedRating_nonneg (r : TitleSearchResult)
    (h : (0 : ℝ) ≤ ((r.average_rating.getD 5 : ℚ) : ℝ)) :
    0 ≤ weightedRating r := by
  unfold weightedRating
  dsimp only
  split_ifs with hv
  · have hs : (0:ℝ) < ((r.num_votes.getD 0 : ℤ) : ℝ) + M_PRIOR := by
      have : (0:ℝ) < M_PRIOR := by norm_num [M_PRIOR]
      linarith
    have hg : (0:ℝ) ≤ GLOBAL_AVG := by norm_num [GLOBAL_AVG]
    have hm : (0:ℝ) ≤ M_PRIOR := by norm_num [M_PRIOR]
    positivity
  · norm_num [GLOBAL_AVG]

lemma ratingComponent_nonneg (r : TitleSearchResult)
    (h : (0 : ℝ) ≤ ((r.average_rating.getD 5 : ℚ) : ℝ)) :
    0 ≤ ratingComponent r := by
  unfold ratingComponent
  have := weightedRating_nonneg r h
  linarith

lemma log_vmax_pos : 0 < Real.log ((2000000 : ℝ) + 1) :=
  Real.log_pos (by norm_num)

/-- A usable lower bound on the popularity normalizer `ln(1 + 2_000_000)`. -/
lemma log_vmax_ge : (13.8629 : ℝ) ≤ Real.log ((2000000 : ℝ) + 1) := by
  have h1 : Real.log ((1048576 : ℝ)) ≤ Real.log ((2000000 : ℝ) + 1) :=
    Real.log_le_log (by norm_num) (by norm_num)
  have h2 : Real.log ((1048576 : ℝ)) = 20 * Real.log 2 := by
    rw [show (1048576 : ℝ) = 2 ^ (20 : ℕ) by norm_num, Real.log_pow]
    norm_num
  have h3 : (0.6931471803 : ℝ) < Real.log 2 := Real.log_two_gt_d9
  calc (13.8629 : ℝ) ≤ 20 * 0.6931471803 := by norm_num
    _ ≤ 20 * Real.log 2 := by linarith
    _ = Real.log ((1048576 : ℝ)) := h2.symm
    _ ≤ Real.log ((2000000 : ℝ) + 1) := h1

lemma popularityComponent_nonneg (r : TitleSearchResult) :
    0 ≤ popularityComponent r := by
  unfold popularityComponent
  dsimp only
  split_ifs with hv
  · have h1 : (0:ℝ) ≤ Real.log (((r.num_votes.getD 0 : ℤ) : ℝ) + 1) :=
      Real.log_nonneg (by linarith)
    have h2 := log_vmax_pos
    positivity
  · exact le_refl 0

/-- Vote counts below the reference ceiling keep the popularity
contribution at or below 2.2. -/
lemma popularityComponent_le (r : TitleSearchResult)
    (h : ((r.num_votes.getD 0 : ℤ) : ℝ) ≤ 2000000) :
    popularityComponent r ≤ 2.2 := by
  unfold popularityComponent
  dsimp only
  split_ifs with hv
  · have h1 : Real.log (((r.num_votes.getD 0 : ℤ) : ℝ) + 1) ≤
        Real.log ((2000000 : ℝ) + 1) :=
      Real.log_le_log (by linarith) (by linarith)
    have h2 := log_vmax_pos
    have h3 : Real.log (((r.num_votes.getD 0 : ℤ) : ℝ) + 1) /
        Real.log ((2000000 : ℝ) + 1) ≤ 1 := by
      rw [div_le_one h2]; exact h1
    nlinarith [h3]
  · norm_num

lemma yearComponent_ge (r : TitleSearchResult) (y : ℤ) :
    -0.1 ≤ yearComponent r y := by
  unfold yearComponent
  dsimp only
  split_ifs with h
  · norm_num
  · exact le_min (le_trans (by norm_num) (le_max_right _ _)) (by norm_num)

lemma yearComponent_le (r : TitleSearchResult) (y : ℤ) :
    yearComponent r y ≤ 0.15 := by
  unfold yearComponent
  dsimp only
  split_ifs with h
  · norm_num
  · exact min_le_right _ _

lemma coldStartFactor_ge (v : ℤ) : 0.2 ≤ coldStartFactor v := by
  unfold coldStartFactor
  split_ifs <;> norm_num

lemma coldStartFactor_le_one (v : ℤ) : coldStartFactor v ≤ 1 := by
  unfold coldStartFactor
  split_ifs <;> norm_num

lemma coldStartFactor_mono {v₁ v₂ : ℤ} (h : v₁ ≤ v₂) :
    coldStartFactor v₁ ≤ coldStartFactor v₂ := by
  unfold coldStartFactor
  split_ifs <;> (try norm_num) <;> omega

/-- A usable upper bound on the partial-match compressed base `ln(1+5)`. -/
lemma log_six_le : Real.log ((6:ℝ)) ≤ 2.08 := by
  have h1 : Real.log ((6:ℝ)) ≤ Real.log ((8:ℝ)) :=
    Real.log_le_log (by norm_num) (by norm_num)
  have h2 : Real.log ((8:ℝ)) = 3 * Real.log 2 := by
    rw [show (8:ℝ) = 2 ^ (3:ℕ) by norm_num, Real.log_pow]
    norm_num
  have h3 : Real.log 2 < 0.6931471808 := Real.log_two_lt_d9
  calc Real.log ((6:ℝ)) ≤ 3 * Real.log 2 := by rw [← h2]; exact h1
    _ ≤ 3 * 0.6931471808 := by linarith
    _ ≤ 2.08 := by norm_num

/-- Strict growth of the Bayesian weighted rating when both the rating and
the vote count strictly increase, provided the lower rating already sits at or
above the global average (below it, more votes can pull `wr` down). -/
lemma wr_shrink_lt {r₁ r₂ v₁ v₂ : ℝ} (hr : (6.7:ℝ) ≤ r₁) (hrr : r₁ < r₂)
    (hv0 : 0 ≤ v₁) (hvv : v₁ < v₂) :
    (if 0 < v₁ then v₁ / (v₁ + 12000) * r₁ + 12000 / (v₁ + 12000) * 6.7
     else 6.7) <
      v₂ / (v₂ + 12000) * r₂ + 12000 / (v₂ + 12000) * 6.7 := by
  have hv₂ : 0 < v₂ := lt_of_le_of_lt hv0 hvv
  have hd2 : 0 < v₂ + 12000 := by linarith
  have e2 : v₂ / (v₂ + 12000) * r₁ + 12000 / (v₂ + 12000) * 6.7 =
      6.7 + v₂ / (v₂ + 12000) * (r₁ - 6.7) := by
    field_simp
    ring
  have hcoef2 : 0 < v₂ / (v₂ + 12000) := by positivity
  have key2 : v₂ / (v₂ + 12000) * r₁ + 12000 / (v₂ + 12000) * 6.7 <
      v₂ / (v₂ + 12000) * r₂ + 12000 / (v₂ + 12000) * 6.7 := by
    have := mul_lt_mul_of_pos_left hrr hcoef2
    linarith
  split_ifs with h1
  · have hd1 : 0 < v₁ + 12000 := by linarith
    have e1 : v₁ / (v₁ + 12000) * r₁ + 12000 / (v₁ + 12000) * 6.7 =
        6.7 + v₁ / (v₁ + 12000) * (r₁ - 6.7) := by
      field_simp
      ring
    have hfrac : v₁ / (v₁ + 12000) ≤ v₂ / (v₂ + 12000) := by
      rw [div_le_div_iff hd1 hd2]
      nlinarith
    have hmono : v₁ / (v₁ + 12000) * (r₁ - 6.7) ≤
        v₂ / (v₂ + 12000) * (r₁ - 6.7) :=
      mul_le_mul_of_nonneg_right hfrac (by linarith)
    linarith
  · have hc0 : 0 ≤ v₂ / (v₂ + 12000) * (r₁ - 6.7) :=
      mul_nonneg hcoef2.le (by linarith)
    linarith

/-- The popularity component is monotone in the vote count. -/
lemma popularityComponent_mono (a c : TitleSearchResult)
    (h : a.num_votes.getD 0 ≤ c.num_votes.getD 0) :
    popularityComponent a ≤ popularityComponent c := by
  unfold popularityComponent
  dsimp only
  have hcast : ((a.num_votes.getD 0 : ℤ) : ℝ) ≤ ((c.num_votes.getD 0 : ℤ) : ℝ) :=
    Int.cast_le.mpr h
  split_ifs with h1 h2 h2
  · have hlog : Real.log (((a.num_votes.getD 0 : ℤ) : ℝ) + 1) ≤
        Real.log (((c.num_votes.getD 0 : ℤ) : ℝ) + 1) :=
      Real.log_le_log (by linarith) (by linarith)
    have hL := log_vmax_pos
    exact mul_le_mul_of_nonneg_right ((div_le_div_right hL).mpr hlog)
      (by norm_num)
  · exact absurd (lt_of_lt_of_le h1 hcast) h2
  · have hlog0 : 0 ≤ Real.log (((c.num_votes.getD 0 : ℤ) : ℝ) + 1) :=
      Real.log_nonneg (by linarith)
    have hL := log_vmax_pos
    positivity
  · exact le_refl 0

/-! ## Settled claims -/

/-- C10: for every base lexical score (including negative and zero), every
candidate and every query, the relevance score is non-negative: the
compressed base `ln(1+max(raw,0))` is non-negative and the combined
multiplier is floored at 0.05. -/
theorem C10_score_nonneg (b : ℝ) (r : TitleSearchResult) (q : Option Str)
    (y : ℤ) : 0 ≤ compute_title_relevance_score b r q y := by
  unfold compute_title_relevance_score
  apply mul_nonneg (baseAndBonus_fst_nonneg b r q)
  have h := le_max_right
    ((1 + ratingComponent r + popularityComponent r + yearComponent r y +
        (baseAndBonus b r q).2) * coldStartFactor (r.num_votes.getD 0))
    (0.05 : ℝ)
  linarith

/-- C6: when the normalized query equals the normalized candidate name
(exact match), the compressed base `ln(1+max(raw,0))` is floored at a fixed
constant (4.5 for queries of at most 3 characters, 3.8 otherwise) and a large
additive bonus (7.0 short, 6.0 long) becomes the title bonus; both the floor
and the bonus are strictly larger for short queries. -/
theorem C6_exact_match_floor_and_bonus (b : ℝ) (r : TitleSearchResult)
    (q : Str) (hne : needleOf q ≠ [])
    (hex : toLowerStr r.primary_title = needleOf q) :
    baseAndBonus b r (some q) =
      (max (Real.log (max b 0 + 1)) (if (needleOf q).length ≤ 3 then 4.5 else 3.8),
       if (needleOf q).length ≤ 3 then 7.0 else 6.0) ∧
    ((3.8 : ℝ) < 4.5 ∧ (6.0 : ℝ) < 7.0) :=
  ⟨baseAndBonus_exact b r q hne hex, by norm_num, by norm_num⟩

/-- Witness for C6: the movie "Up" queried with "up" (raw base 1). -/
theorem C6_witness :
    baseAndBonus 1 { primary_title := "Up".toList } (some "up".toList) =
      (max (Real.log (max 1 0 + 1))
        (if (needleOf "up".toList).length ≤ 3 then 4.5 else 3.8),
       if (needleOf "up".toList).length ≤ 3 then 7.0 else 6.0) ∧
    ((3.8 : ℝ) < 4.5 ∧ (6.0 : ℝ) < 7.0) :=
  C6_exact_match_floor_and_bonus 1 { primary_title := "Up".toList }
    "up".toList (by decide) (by decide)

/-- C7 counterexample: a candidate with no rating at all but 500,000 votes is
NOT dampened — its cold-start factor is exactly 1, and its full score equals
that of the identical candidate carrying the default rating 5.0 — refuting
"for every candidate … that has no rating at all, the scorer scales the final
multiplier down by a fixed fraction, so that such a candidate scores markedly
lower than an otherwise-identical candidate with a high vote count". -/
theorem C7_counterexample :
    (TitleSearchResult.average_rating
        { primary_title := "X".toList, average_rating := none,
          num_votes := some 500000 } = none) ∧
    coldStartFactor (Option.getD (TitleSearchResult.num_votes
        { primary_title := "X".toList, average_rating := none,
          num_votes := some 500000 }) 0) = 1 ∧
    compute_title_relevance_score 1
        { primary_title := "X".toList, average_rating := none,
          num_votes := some 500000 } none 2025 =
      compute_title_relevance_score 1
        { primary_title := "X".toList, average_rating := some 5,
          num_votes := some 500000 } none 2025 := by
  refine ⟨rfl, ?_, rfl⟩
  norm_num [coldStartFactor]

/-- C7 (amended): the cold-start dampening is a function of the vote count
alone — below 50 votes (including an absent vote count) the multiplier is
scaled by 0.20, below 500 by 0.50, below 2000 by 0.80, and not at all from
2000 votes on; the absence of a rating does not by itself dampen.  A low-vote
candidate scores markedly lower than an otherwise-identical high-vote one:
with rating 8.0, base 1 and no query, 10 votes score strictly below 100,000
votes. -/
theorem C7_cold_start_dampening (v : ℤ) :
    ((v < 50 → coldStartFactor v = 0.20) ∧
     (50 ≤ v → v < 500 → coldStartFactor v = 0.50) ∧
     (500 ≤ v → v < 2000 → coldStartFactor v = 0.80) ∧
     (2000 ≤ v → coldStartFactor v = 1)) ∧
    (v < 2000 → coldStartFactor v < 1) ∧
    compute_title_relevance_score 1
        { primary_title := "X".toList, average_rating := some 8,
          num_votes := some 10 } none 2025 <
      compute_title_relevance_score 1
        { primary_title := "X".toList, average_rating := some 8,
          num_votes := some 100000 } none 2025 := by
  refine ⟨⟨?_, ?_, ?_, ?_⟩, ?_, ?_⟩
  · intro h; simp only [coldStartFactor, if_pos h]
  · intro h1 h2
    simp only [coldStartFactor]
    rw [if_neg (by omega), if_pos h2]
  · intro h1 h2
    simp only [coldStartFactor]
    rw [if_neg (by omega), if_neg (by omega), if_pos h2]
  · intro h
    simp only [coldStartFactor]
    rw [if_neg (by omega), if_neg (by omega), if_neg (by omega)]
  · intro h
    unfold coldStartFactor
    split_ifs <;> norm_num
  · unfold compute_title_relevance_score
    set low : TitleSearchResult :=
      { primary_title := "X".toList, average_rating := some 8,
        num_votes := some 10 } with hlow
    set high : TitleSearchResult :=
      { primary_title := "X".toList, average_rating := some 8,
        num_votes := some 100000 } with hhigh
    have hbbl : baseAndBonus 1 low none = (Real.log (max 1 0 + 1), 0) :=
      baseAndBonus_none 1 low
    have hbbh : baseAndBonus 1 high none = (Real.log (max 1 0 + 1), 0) :=
      baseAndBonus_none 1 high
    rw [hbbl, hbbh]
    have hlog2 : (0:ℝ) < Real.log (max 1 0 + 1) := by
      apply Real.log_pos; norm_num
    have hrcl : ratingComponent low ≤ 2.0104 := by
      unfold ratingComponent weightedRating GLOBAL_AVG M_PRIOR
      norm_num [hlow]
    have hrch : (2.358:ℝ) ≤ ratingComponent high := by
      unfold ratingComponent weightedRating GLOBAL_AVG M_PRIOR
      norm_num [hhigh]
    have hpcl : popularityComponent low ≤ 1.588 := by
      unfold popularityComponent
      norm_num [hlow]
      have h11 : Real.log ((10:ℝ) + 1) ≤ 10 := by
        have := Real.log_le_sub_one_of_pos (show (0:ℝ) < 10 + 1 by norm_num)
        linarith
      have hV : (13.8629:ℝ) ≤ Real.log ((2000000:ℝ) + 1) := log_vmax_ge
      have hVpos : (0:ℝ) < Real.log ((2000000:ℝ) + 1) := log_vmax_pos
      have hdiv : Real.log ((10:ℝ) + 1) / Real.log ((2000000:ℝ) + 1) ≤
          10 / 13.8629 :=
        div_le_div₀ (by norm_num) h11 (by norm_num) hV
      nlinarith [hdiv]
    have hpch : (0:ℝ) ≤ popularityComponent high := popularityComponent_nonneg high
    have hycl : yearComponent low 2025 = 0 := by
      unfold yearComponent recencyYear isSeriesKind
      norm_num [hlow]
    have hych : yearComponent high 2025 = 0 := by
      unfold yearComponent recencyYear isSeriesKind
      norm_num [hhigh]
    have hcsl : coldStartFactor (low.num_votes.getD 0) = 0.20 := by
      norm_num [hlow, coldStartFactor]
    have hcsh : coldStartFactor (high.num_votes.getD 0) = 1 := by
      norm_num [hhigh, coldStartFactor]
    rw [hycl, hych, hcsl, hcsh]
    have hrcl0 : (0:ℝ) ≤ ratingComponent low :=
      ratingComponent_nonneg low (by norm_num [hlow])
    have hpcl0 : (0:ℝ) ≤ popularityComponent low :=
      popularityComponent_nonneg low
    have hlowc : (1 + ratingComponent low + popularityComponent low + 0 + 0) * 0.20
        ≤ 0.9199 := by nlinarith
    have hlowc0 : (0.05:ℝ) ≤
        (1 + ratingComponent low + popularityComponent low + 0 + 0) * 0.20 := by
      nlinarith
    have hhighc : (3.358:ℝ) ≤
        (1 + ratingComponent high + popularityComponent high + 0 + 0) * 1 := by
      nlinarith
    have hmaxl : max ((1 + ratingComponent low + popularityComponent low + 0 + 0)
        * 0.20) 0.05 ≤ 0.9199 := max_le hlowc (by norm_num)
    have hmaxh : (3.358:ℝ) ≤
        max ((1 + ratingComponent high + popularityComponent high + 0 + 0) * 1)
          0.05 := le_trans hhighc (le_max_left _ _)
    nlinarith [hmaxl, hmaxh, hlog2]

/-- Witness for C7 (amended): at 10 votes the factor is the fixed fraction
0.20 < 1; at 3000 votes it is 1. -/
theorem C7_witness :
    coldStartFactor 10 = 0.20 ∧ coldStartFactor 10 < 1 ∧
      coldStartFactor 3000 = 1 :=
  ⟨(C7_cold_start_dampening 10).1.1 (by norm_num),
   (C7_cold_start_dampening 10).2.1 (by norm_num),
   (C7_cold_start_dampening 3000).1.2.2.2 (by norm_num)⟩

/-- An open-ended tvSeries candidate used to exhibit the scorer's dependence
on the ambient clock year. -/
def c8cand : TitleSearchResult :=
  { primary_title := "X".toList, title_type := some "tvSeries".toList,
    start_year := some 2000, end_year := none,
    average_rating := some 8, num_votes := some 100000 }

/-- C8 counterexample: the scorer reads the ambient clock
(`Utc::now().year()`), so it is NOT deterministic in (base score, candidate
fields, normalized query) alone: an open-ended tvSeries scores differently
when invoked with clock year 2012 and clock year 2030, all three stated
inputs identical. -/
theorem C8_counterexample :
    compute_title_relevance_score 1 c8cand none 2012 ≠
      compute_title_relevance_score 1 c8cand none 2030 := by
  unfold compute_title_relevance_score
  rw [baseAndBonus_none 1 c8cand]
  have hy1 : yearComponent c8cand 2012 = 0 := by
    unfold yearComponent
    dsimp only
    rw [show recencyYear c8cand 2012 = 2012 from by decide]
    norm_num
  have hy2 : yearComponent c8cand 2030 = 0.15 := by
    unfold yearComponent
    dsimp only
    rw [show recencyYear c8cand 2030 = 2030 from by decide]
    rw [if_neg (by norm_num)]
    rw [show (((2030:ℤ):ℝ) - 2012) / 90 = 0.2 from by norm_num]
    rw [max_eq_left (by norm_num), min_eq_right (by norm_num)]
  have hcs : coldStartFactor (c8cand.num_votes.getD 0) = 1 := by
    norm_num [c8cand, coldStartFactor]
  dsimp only
  rw [hy1, hy2, hcs]
  have hrc : (0:ℝ) ≤ ratingComponent c8cand :=
    ratingComponent_nonneg c8cand (by norm_num [c8cand])
  have hpc : (0:ℝ) ≤ popularityComponent c8cand :=
    popularityComponent_nonneg c8cand
  have hlog2 : (0:ℝ) < Real.log (max 1 0 + 1) := by
    apply Real.log_pos; norm_num
  have h1 : max ((1 + ratingComponent c8cand + popularityComponent c8cand +
      0 + 0) * 1) 0.05 =
      1 + ratingComponent c8cand + popularityComponent c8cand := by
    rw [max_eq_left (by nlinarith)]
    ring
  have h2 : max ((1 + ratingComponent c8cand + popularityComponent c8cand +
      0.15 + 0) * 1) 0.05 =
      1 + ratingComponent c8cand + popularityComponent c8cand + 0.15 := by
    rw [max_eq_left (by nlinarith)]
    ring
  rw [h1, h2]
  intro heq
  have := mul_left_cancel₀ (ne_of_gt hlog2) heq
  linarith

/-- C8 (amended): the scorer is deterministic given (base score, candidate
fields, normalized query, current clock year), and the clock year matters
only for open-ended series — for every candidate that is not a
tvSeries/tvMiniSeries/tvEpisode with an absent end year, the score is
independent of the clock year. -/
theorem C8_deterministic_modulo_clock (b : ℝ) (r : TitleSearchResult)
    (q : Option Str) (y₁ y₂ : ℤ)
    (h : ¬(isSeriesKind r.title_type = true ∧ r.end_year = none)) :
    compute_title_relevance_score b r q y₁ =
      compute_title_relevance_score b r q y₂ := by
  unfold compute_title_relevance_score
  have hcond : (isSeriesKind r.title_type && r.end_year == none) = false := by
    rcases he : r.end_year with _ | e
    · cases hk : isSeriesKind r.title_type with
      | false => simp [hk]
      | true => exact absurd ⟨hk, he⟩ h
    · simp [he]
  have hyc : yearComponent r y₁ = yearComponent r y₂ := by
    unfold yearComponent recencyYear
    rw [hcond]
    simp
  rw [hyc]

/-- Witness for C8 (amended): a movie with a closed year span scores the same
under clock years 2012 and 2030. -/
theorem C8_witness :
    compute_title_relevance_score 1
        { primary_title := "X".toList, title_type := some "movie".toList,
          start_year := some 2009, end_year := some 2009,
          average_rating := some 8, num_votes := some 100000 } none 2012 =
      compute_title_relevance_score 1
        { primary_title := "X".toList, title_type := some "movie".toList,
          start_year := some 2009, end_year := some 2009,
          average_rating := some 8, num_votes := some 100000 } none 2030 :=
  C8_deterministic_modulo_clock 1
    { primary_title := "X".toList, title_type := some "movie".toList,
      start_year := some 2009, end_year := some 2009,
      average_rating := some 8, num_votes := some 100000 } none 2012 2030
    (by decide)

/-- The exact-match candidate of the spec's concrete ranking scenario:
"Up" (movie, 2009/2009, rating 8.3, 1,201,529 votes). -/
def c1exact : TitleSearchResult :=
  { tconst := "tt_exact".toList, primary_title := "Up".toList,
    title_type := some "movie".toList, start_year := some 2009,
    end_year := some 2009, average_rating := some 8.3,
    num_votes := some 1201529 }

/-- The partial-match candidate: "No Way Up" (movie, 2024/2024, rating 4.6,
11,321 votes). -/
def c1substr : TitleSearchResult :=
  { tconst := "tt_partial".toList, primary_title := "No Way Up".toList,
    title_type := some "movie".toList, start_year := some 2024,
    end_year := some 2024, average_rating := some 4.6,
    num_votes := some 11321 }

/-- C1: for normalized query "up", the exact match "Up" at base lexical score
0.75 strictly outscores the substring match "No Way Up" at base lexical score
5.0, for every clock year (both candidates are movies with closed year spans,
so the clock is irrelevant). -/
theorem C1_exact_match_outranks_partial (y : ℤ) :
    compute_title_relevance_score 5 c1substr (some "up".toList) y <
      compute_title_relevance_score 0.75 c1exact (some "up".toList) y := by
  unfold compute_title_relevance_score
  -- the exact side: base floored at 4.5, bonus 7.0
  have hbbE : baseAndBonus 0.75 c1exact (some "up".toList) =
      (max (Real.log (max 0.75 0 + 1)) 4.5, 7.0) := by
    rw [baseAndBonus_exact 0.75 c1exact "up".toList (by decide) (by decide)]
    rw [if_pos (by decide), if_pos (by decide)]
  have hfloorE : max (Real.log (max (0.75:ℝ) 0 + 1)) 4.5 = 4.5 := by
    rw [max_eq_right]
    rw [show max (0.75:ℝ) 0 + 1 = 1.75 from by rw [max_eq_left] <;> norm_num]
    have h := Real.log_le_sub_one_of_pos (show (0:ℝ) < 1.75 by norm_num)
    linarith
  -- the partial side: word-match branch, base ln 6, bonus 1.2
  have hbbP : baseAndBonus 5 c1substr (some "up".toList) =
      (Real.log (max 5 0 + 1), 1.2) :=
    baseAndBonus_word 5 c1substr "up".toList (by decide) (by decide)
      (by decide) (by decide)
  have hsixP : max (5:ℝ) 0 + 1 = 6 := by rw [max_eq_left] <;> norm_num
  rw [hbbP, hbbE, hfloorE, hsixP]
  dsimp only
  -- year components
  have hryE : recencyYear c1exact y = 2009 := by
    unfold recencyYear
    rw [show (isSeriesKind c1exact.title_type && c1exact.end_year == none) =
      false from by decide]
    simp [c1exact]
  have hycE : yearComponent c1exact y = -(3/90 : ℝ) := by
    unfold yearComponent
    dsimp only
    rw [hryE, if_neg (by norm_num)]
    rw [show (((2009:ℤ):ℝ) - 2012) / 90 = -(3/90 : ℝ) from by norm_num]
    rw [max_eq_left (by norm_num), min_eq_left (by norm_num)]
  have hryP : recencyYear c1substr y = 2024 := by
    unfold recencyYear
    rw [show (isSeriesKind c1substr.title_type && c1substr.end_year == none) =
      false from by decide]
    simp [c1substr]
  have hycP : yearComponent c1substr y = (12/90 : ℝ) := by
    unfold yearComponent
    dsimp only
    rw [hryP, if_neg (by norm_num)]
    rw [show (((2024:ℤ):ℝ) - 2012) / 90 = (12/90 : ℝ) from by norm_num]
    rw [max_eq_left (by norm_num), min_eq_left (by norm_num)]
  -- cold-start factors (both well above 2000 votes)
  have hcsE : coldStartFactor (c1exact.num_votes.getD 0) = 1 := by
    norm_num [c1exact, coldStartFactor]
  have hcsP : coldStartFactor (c1substr.num_votes.getD 0) = 1 := by
    norm_num [c1substr, coldStartFactor]
  rw [hycE, hycP, hcsE, hcsP]
  -- quality/popularity bounds
  have hrcE : (0:ℝ) ≤ ratingComponent c1exact :=
    ratingComponent_nonneg c1exact (by norm_num [c1exact])
  have hpcE : (0:ℝ) ≤ popularityComponent c1exact :=
    popularityComponent_nonneg c1exact
  have hrcP : ratingComponent c1substr ≤ 1.705 := by
    unfold ratingComponent weightedRating GLOBAL_AVG M_PRIOR
    norm_num [c1substr]
  have hrcP0 : (0:ℝ) ≤ ratingComponent c1substr :=
    ratingComponent_nonneg c1substr (by norm_num [c1substr])
  have hpcP : popularityComponent c1substr ≤ 2.2 :=
    popularityComponent_le c1substr (by norm_num [c1substr])
  -- the exact side is at least 4.5 * (8 - 1/30)
  have hcombE : (8 - 3/90 : ℝ) ≤
      (1 + ratingComponent c1exact + popularityComponent c1exact +
        -(3/90 : ℝ) + 7.0) * 1 := by linarith
  have hmaxE : (8 - 3/90 : ℝ) ≤
      max ((1 + ratingComponent c1exact + popularityComponent c1exact +
        -(3/90 : ℝ) + 7.0) * 1) 0.05 :=
    le_trans hcombE (le_max_left _ _)
  have hscoreE : (4.5:ℝ) * (8 - 3/90) ≤
      4.5 * max ((1 + ratingComponent c1exact + popularityComponent c1exact +
        -(3/90 : ℝ) + 7.0) * 1) 0.05 := by
    apply mul_le_mul_of_nonneg_left hmaxE (by norm_num)
  -- the partial side is at most 2.08 * 6.2384
  have hcombP : (1 + ratingComponent c1substr + popularityComponent c1substr +
      (12/90 : ℝ) + 1.2) * 1 ≤ 6.2384 := by linarith
  have hmaxP : max ((1 + ratingComponent c1substr +
      popularityComponent c1substr + (12/90 : ℝ) + 1.2) * 1) 0.05 ≤ 6.2384 :=
    max_le hcombP (by norm_num)
  have hmaxP0 : (0:ℝ) ≤ max ((1 + ratingComponent c1substr +
      popularityComponent c1substr + (12/90 : ℝ) + 1.2) * 1) 0.05 :=
    le_trans (by norm_num) (le_max_right _ _)
  have hscoreP : Real.log ((6:ℝ)) * max ((1 + ratingComponent c1substr +
      popularityComponent c1substr + (12/90 : ℝ) + 1.2) * 1) 0.05 ≤
      2.08 * 6.2384 :=
    mul_le_mul log_six_le hmaxP hmaxP0 (by norm_num)
  linarith

/-- A mediocre candidate (rating 1.0, 12,000 votes) for the C2
counterexample. -/
def c2low : TitleSearchResult :=
  { primary_title := "X".toList, average_rating := some 1,
    num_votes := some 12000 }

/-- The same candidate with strictly higher rating (1.1) and strictly higher
vote count (24,000). -/
def c2high : TitleSearchResult :=
  { primary_title := "X".toList, average_rating := some 1.1,
    num_votes := some 24000 }

/-- C2 counterexample: `c2high` has a strictly higher rating AND a strictly
higher vote count than the otherwise-identical `c2low`, yet scores strictly
LOWER (at base score 2, no query): with a rating far below the global average
6.7, doubling the votes pulls the shrunk rating down by more than the
popularity gain. -/
theorem C2_counterexample :
    compute_title_relevance_score 2 c2high none 2025 <
      compute_title_relevance_score 2 c2low none 2025 := by
  unfold compute_title_relevance_score
  rw [baseAndBonus_none 2 c2low, baseAndBonus_none 2 c2high]
  dsimp only
  have hyl : yearComponent c2low 2025 = 0 := by
    unfold yearComponent
    dsimp only
    rw [show recencyYear c2low 2025 = 0 from by decide]
    norm_num
  have hyh : yearComponent c2high 2025 = 0 := by
    unfold yearComponent
    dsimp only
    rw [show recencyYear c2high 2025 = 0 from by decide]
    norm_num
  have hcsl : coldStartFactor (c2low.num_votes.getD 0) = 1 := by
    norm_num [c2low, coldStartFactor]
  have hcsh : coldStartFactor (c2high.num_votes.getD 0) = 1 := by
    norm_num [c2high, coldStartFactor]
  rw [hyl, hyh, hcsl, hcsh]
  have hrcl : ratingComponent c2low = 1.155 := by
    unfold ratingComponent weightedRating GLOBAL_AVG M_PRIOR
    norm_num [c2low]
  have hrch : ratingComponent c2high = 0.89 := by
    unfold ratingComponent weightedRating GLOBAL_AVG M_PRIOR
    norm_num [c2high]
  have hpcl : popularityComponent c2low =
      Real.log ((12001:ℝ)) / Real.log ((2000001:ℝ)) * 2.2 := by
    unfold popularityComponent
    norm_num [c2low]
  have hpch : popularityComponent c2high =
      Real.log ((24001:ℝ)) / Real.log ((2000001:ℝ)) * 2.2 := by
    unfold popularityComponent
    norm_num [c2high]
  -- the popularity gain is below 0.111
  have hΔ : Real.log ((24001:ℝ)) - Real.log ((12001:ℝ)) ≤ 0.6931471808 := by
    have h1 : Real.log ((24001:ℝ)) ≤ Real.log ((24002:ℝ)) :=
      Real.log_le_log (by norm_num) (by norm_num)
    have h2 : Real.log ((24002:ℝ)) = Real.log 2 + Real.log ((12001:ℝ)) := by
      rw [show (24002:ℝ) = 2 * 12001 by norm_num,
        Real.log_mul (by norm_num) (by norm_num)]
    have h3 : Real.log 2 < 0.6931471808 := Real.log_two_lt_d9
    linarith
  have hL : (13.8629:ℝ) ≤ Real.log ((2000001:ℝ)) := by
    have h := log_vmax_ge
    rw [show ((2000000:ℝ) + 1) = 2000001 from by norm_num] at h
    exact h
  have hLpos : (0:ℝ) < Real.log ((2000001:ℝ)) :=
    lt_of_lt_of_le (by norm_num) hL
  have hl0 : (0:ℝ) ≤ Real.log ((12001:ℝ)) := Real.log_nonneg (by norm_num)
  have hgain : popularityComponent c2high - popularityComponent c2low ≤
      0.111 := by
    rw [hpcl, hpch]
    have hdiv : (Real.log ((24001:ℝ)) - Real.log ((12001:ℝ))) /
        Real.log ((2000001:ℝ)) ≤ 0.6931471808 / 13.8629 :=
      div_le_div₀ (by norm_num) hΔ (by norm_num) hL
    have hsplit : Real.log ((24001:ℝ)) / Real.log ((2000001:ℝ)) * 2.2 -
        Real.log ((12001:ℝ)) / Real.log ((2000001:ℝ)) * 2.2 =
        (Real.log ((24001:ℝ)) - Real.log ((12001:ℝ))) /
          Real.log ((2000001:ℝ)) * 2.2 := by
      field_simp
      ring
    nlinarith [hdiv]
  have hpcl0 : (0:ℝ) ≤ popularityComponent c2low :=
    popularityComponent_nonneg c2low
  have hpch0 : (0:ℝ) ≤ popularityComponent c2high :=
    popularityComponent_nonneg c2high
  rw [hrcl, hrch]
  have hlog3 : (0:ℝ) < Real.log (max 2 0 + 1) := by
    apply Real.log_pos
    rw [max_eq_left (by norm_num)]
    norm_num
  have hcl : max ((1 + 1.155 + popularityComponent c2low + 0 + 0) * 1) 0.05 =
      (1 + 1.155 + popularityComponent c2low + 0 + 0) * 1 :=
    max_eq_left (by nlinarith)
  have hch : max ((1 + 0.89 + popularityComponent c2high + 0 + 0) * 1) 0.05 =
      (1 + 0.89 + popularityComponent c2high + 0 + 0) * 1 :=
    max_eq_left (by nlinarith)
  rw [hcl, hch]
  apply mul_lt_mul_of_pos_left _ hlog3
  nlinarith [hgain]

/-- C2 (amended): the claimed monotonicity does hold once the lower
candidate's rating is at or above the global-average constant 6.7 and the
base lexical score is positive: raising both the rating and the vote count
of such a candidate strictly raises its relevance score (same base score,
same query, same clock year).  (Below the global average the claim is false:
see the counterexample.) -/
theorem C2_monotone_above_global_average (c : TitleSearchResult) (b : ℝ)
    (q : Option Str) (y : ℤ) (r₁ r₂ : ℚ) (v₁ v₂ : ℤ)
    (hc₁ : c.average_rating = some r₁) (hc₂ : c.num_votes = some v₁)
    (hr : (6.7:ℚ) ≤ r₁) (hrr : r₁ < r₂) (hv0 : 0 ≤ v₁) (hvv : v₁ < v₂)
    (hb : 0 < b) :
    compute_title_relevance_score b c q y <
      compute_title_relevance_score b
        { c with average_rating := some r₂, num_votes := some v₂ } q y := by
  set c' : TitleSearchResult :=
    { c with average_rating := some r₂, num_votes := some v₂ } with hc'
  have hbb : baseAndBonus b c' q = baseAndBonus b c q := rfl
  have hyc : yearComponent c' y = yearComponent c y := rfl
  unfold compute_title_relevance_score
  rw [hbb, hyc]
  dsimp only
  -- the weighted rating strictly increases
  have hwr : weightedRating c < weightedRating c' := by
    unfold weightedRating GLOBAL_AVG M_PRIOR
    dsimp only
    rw [hc₁, hc₂]
    simp only [Option.getD_some]
    have hv₂cast : (0:ℝ) < ((v₂:ℤ):ℝ) := by
      have : (0:ℤ) < v₂ := lt_of_le_of_lt hv0 hvv
      exact_mod_cast this
    rw [if_pos hv₂cast]
    exact wr_shrink_lt
      (by rw [show (6.7:ℝ) = ((6.7:ℚ):ℝ) from by norm_num]; exact_mod_cast hr)
      (by exact_mod_cast hrr) (by exact_mod_cast hv0) (by exact_mod_cast hvv)
  have hrc : ratingComponent c < ratingComponent c' := by
    unfold ratingComponent
    linarith
  have hpc : popularityComponent c ≤ popularityComponent c' := by
    apply popularityComponent_mono
    rw [hc₂]
    show v₁ ≤ _
    calc v₁ ≤ v₂ := le_of_lt hvv
      _ = c'.num_votes.getD 0 := rfl
  -- lower bounds on the undampened multiplier of the smaller candidate
  have hrc_lb : (2.01:ℝ) ≤ ratingComponent c := by
    have hwr_lb : (6.7:ℝ) ≤ weightedRating c := by
      apply weightedRating_ge_global
      rw [hc₁]
      simp only [Option.getD_some]
      rw [show (6.7:ℝ) = ((6.7:ℚ):ℝ) from by norm_num]
      exact_mod_cast hr
    unfold ratingComponent
    linarith
  have hpc0 : (0:ℝ) ≤ popularityComponent c := popularityComponent_nonneg c
  have hyc_lb : (-0.1:ℝ) ≤ yearComponent c y := yearComponent_ge c y
  have htb_lb : (-0.8:ℝ) ≤ (baseAndBonus b c q).2 := baseAndBonus_snd_ge b c q
  have hraw_lb : (2.11:ℝ) ≤ 1 + ratingComponent c + popularityComponent c +
      yearComponent c y + (baseAndBonus b c q).2 := by linarith
  have hraw_lt : 1 + ratingComponent c + popularityComponent c +
      yearComponent c y + (baseAndBonus b c q).2 <
      1 + ratingComponent c' + popularityComponent c' +
        yearComponent c y + (baseAndBonus b c q).2 := by linarith
  -- cold-start factors
  have hcsf_mono : coldStartFactor (c.num_votes.getD 0) ≤
      coldStartFactor (c'.num_votes.getD 0) := by
    apply coldStartFactor_mono
    rw [hc₂]
    show v₁ ≤ _
    calc v₁ ≤ v₂ := le_of_lt hvv
      _ = c'.num_votes.getD 0 := rfl
  have hcsf1_lb : (0.2:ℝ) ≤ coldStartFactor (c.num_votes.getD 0) :=
    coldStartFactor_ge _
  -- the dampened multipliers stay strictly ordered and above the 0.05 floor
  have hdamp_lt : (1 + ratingComponent c + popularityComponent c +
        yearComponent c y + (baseAndBonus b c q).2) *
        coldStartFactor (c.num_votes.getD 0) <
      (1 + ratingComponent c' + popularityComponent c' +
        yearComponent c y + (baseAndBonus b c q).2) *
        coldStartFactor (c'.num_votes.getD 0) := by
    apply lt_of_lt_of_le
      (mul_lt_mul_of_pos_right hraw_lt (by linarith))
    apply mul_le_mul_of_nonneg_left hcsf_mono
    linarith
  have hdamp_lb : (0.05:ℝ) < (1 + ratingComponent c + popularityComponent c +
      yearComponent c y + (baseAndBonus b c q).2) *
      coldStartFactor (c.num_votes.getD 0) := by nlinarith
  rw [max_eq_left (le_of_lt hdamp_lb),
    max_eq_left (le_of_lt (lt_trans hdamp_lb hdamp_lt))]
  exact mul_lt_mul_of_pos_left hdamp_lt (baseAndBonus_fst_pos hb c q)

/-- Witness for C2 (amended): rating 7 → 8 and votes 100 → 5000 on a
candidate at base score 1 strictly raise the score. -/
theorem C2_witness :
    compute_title_relevance_score 1
        { primary_title := "X".toList, average_rating := some 7,
          num_votes := some 100 } none 2025 <
      compute_title_relevance_score 1
        { primary_title := "X".toList, average_rating := some 8,
          num_votes := some 5000 } none 2025 :=
  C2_monotone_above_global_average
    { primary_title := "X".toList, average_rating := some 7,
      num_votes := some 100 } 1 none 2025 7 8 100 5000 rfl rfl
    (by norm_num) (by norm_num) (by norm_num) (by norm_num) (by norm_num)

/-! ## Helper lemmas about alias dedup, query composition and lookups -/

/-- Membership in the dedup pass: an alternate title survives iff it occurs in
the input and is not already in the seen set (character-exact, hence
case-sensitive, equality). -/
lemma mem_dedupAkas (a : Str) : ∀ (l : List Str) (seen : List Str),
    a ∈ dedupAkas seen l ↔ a ∈ l ∧ a ∉ seen := by
  intro l
  induction l with
  | nil => intro seen; simp [dedupAkas]
  | cons b rest ih =>
    intro seen
    by_cases hb : b ∈ seen
    · rw [dedupAkas, if_pos hb, ih]
      constructor
      · rintro ⟨h1, h2⟩
        exact ⟨List.mem_cons_of_mem _ h1, h2⟩
      · rintro ⟨h1, h2⟩
        rcases List.mem_cons.mp h1 with rfl | h1
        · exact absurd hb h2
        · exact ⟨h1, h2⟩
    · rw [dedupAkas, if_neg hb]
      by_cases hab : a = b
      · subst hab
        simp [hb]
      · rw [List.mem_cons]
        rw [ih (b :: seen)]
        simp only [List.mem_cons]
        constructor
        · rintro (rfl | ⟨h1, h2⟩)
          · exact absurd rfl hab
          · push_neg at h2
            exact ⟨Or.inr h1, h2.2⟩
        · rintro ⟨rfl | h1, h2⟩
          · exact absurd rfl hab
          · exact Or.inr ⟨h1, by simp [hab, h2]⟩

/-- The dedup pass emits no duplicates. -/
lemma dedupAkas_nodup : ∀ (l : List Str) (seen : List Str),
    (dedupAkas seen l).Nodup := by
  intro l
  induction l with
  | nil => intro seen; simp [dedupAkas]
  | cons b rest ih =>
    intro seen
    by_cases hb : b ∈ seen
    · rw [dedupAkas, if_pos hb]
      exact ih seen
    · rw [dedupAkas, if_neg hb]
      refine List.nodup_cons.mpr ⟨?_, ih (b :: seen)⟩
      rw [mem_dedupAkas]
      rintro ⟨-, h2⟩
      exact h2 (List.mem_cons_self b seen)

/-- `satMusts` succeeds iff every `Must` clause is satisfied. -/
lemma satMusts_eq_true_iff {F Doc : Type} (m : Matcher F Doc) (d : Doc) :
    ∀ cs : List (TOccur × Query F),
      satMusts m d cs = true ↔
        ∀ c ∈ cs, c.1 = TOccur.must → satisfies m d c.2 = true := by
  intro cs
  induction cs with
  | nil => simp [satMusts]
  | cons c rest ih =>
    obtain ⟨o, qq⟩ := c
    rw [satMusts, Bool.and_eq_true, ih]
    cases o with
    | must => simp
    | should => simp

/-- Every clause the title query composer pushes is `Occur::Must`. -/
lemma composeTitleClauses_all_must (p : TitleSearchParams) :
    ∀ c ∈ composeTitleClauses p, c.1 = TOccur.must := by
  intro c hc
  unfold composeTitleClauses at hc
  simp only [List.mem_append] at hc
  rcases hc with ((((((hc | hc) | hc) | hc) | hc) | hc) | hc) <;>
    first
    | (split_ifs at hc <;> simp_all)
    | (simp only [List.mem_map] at hc; obtain ⟨g, -, rfl⟩ := hc; rfl)

/-- Every clause the name query composer pushes is `Occur::Must`. -/
lemma composeNameClauses_all_must (p : NameSearchParams) :
    ∀ c ∈ composeNameClauses p, c.1 = TOccur.must := by
  intro c hc
  unfold composeNameClauses at hc
  simp only [List.mem_append] at hc
  rcases hc with ((hc | hc) | hc) <;>
    first
    | (split_ifs at hc <;> simp_all)
    | (simp only [List.mem_map, List.mem_filter] at hc;
       obtain ⟨g, -, rfl⟩ := hc; rfl)

/-- For a clause list that is all `Must`, satisfaction of the composed query
forces satisfaction of every member clause. -/
lemma satisfies_composed_forces {F Doc : Type} (m : Matcher F Doc) (d : Doc)
    (cs : List (TOccur × Query F))
    (hsat : satisfies m d (queryOfClauses cs) = true)
    (hall : ∀ c ∈ cs, c.1 = TOccur.must) :
    ∀ c ∈ cs, satisfies m d c.2 = true := by
  match cs with
  | [] => intro c hc; simp at hc
  | [c₀] =>
    intro c hc
    rcases List.mem_singleton.mp hc with rfl
    exact hsat
  | c₀ :: c₁ :: rest =>
    intro c hc
    have hsat' : satisfies m d (Query.boolean (c₀ :: c₁ :: rest)) = true := hsat
    rw [satisfies, Bool.and_eq_true] at hsat'
    exact (satMusts_eq_true_iff m d _).mp hsat'.1 c hc (hall c hc)

/-- A term query over a key projection, restricted to its first hit, returns
exactly the (unique) document carrying the key. -/
lemma filter_key_take_one {α : Type} (key : α → Str) (l : List α) (t : Str)
    (d : α) (hmem : d ∈ l) (hkey : key d = t)
    (hnodup : (l.map key).Nodup) :
    (l.filter (fun x => key x == t)).take 1 = [d] := by
  induction l with
  | nil => simp at hmem
  | cons a rest ih =>
    rw [List.map_cons, List.nodup_cons] at hnodup
    rcases List.mem_cons.mp hmem with rfl | hmem'
    · rw [List.filter_cons, if_pos (by simp [hkey])]
      rfl
    · have hat : key a ≠ t := by
        intro hat
        exact hnodup.1 (hat ▸ hkey ▸ List.mem_map_of_mem key hmem')
      rw [List.filter_cons, if_neg (by simp [hat])]
      exact ih hmem' hnodup.2

/-- A term query with no matching document yields no hits. -/
lemma filter_key_empty {α : Type} (key : α → Str) (l : List α) (t : Str)
    (habsent : ∀ d ∈ l, key d ≠ t) :
    l.filter (fun x => key x == t) = [] := by
  rw [List.filter_eq_nil]
  intro a ha
  simp [habsent a ha]

/-- C4 counterexample: a title row with an EMPTY primary title is indexed
(with an empty display name), and a name row whose primary name is the `\N`
sentinel is indexed (with the sentinel as display name) — refuting "no indexed
document has an empty or sentinel primary display name". -/
theorem C4_counterexample :
    ((buildTitleDoc (fun _ => none) (fun _ => none) (fun _ => none)
        ["tt1".toList, "movie".toList, []]).map
      (fun d => d.primary_title)) = some [] ∧
    ((buildNameDoc ["nm1".toList, "\\N".toList]).map
      (fun d => d.primary_name)) = some sentinel := by
  exact ⟨rfl, rfl⟩

/-- C4 (amended): both builders skip rows whose id is missing, empty or the
`\N` sentinel, so every indexed document has a non-empty, non-sentinel id;
a title row is skipped when its primary-title COLUMN is missing (but an empty
or sentinel primary title is indexed as-is), and a name row is skipped when
its primary name is empty (but the `\N` sentinel is indexed as-is). -/
theorem C4_skip_guards (ratings : Str → Option (ℚ × ℤ))
    (akas principals : Str → Option (List Str)) (row : List Str) :
    ((row[0]? = none ∨ row[0]? = some [] ∨ row[0]? = some sentinel) →
      buildTitleDoc ratings akas principals row = none ∧
        buildNameDoc row = none) ∧
    (row[2]? = none → buildTitleDoc ratings akas principals row = none) ∧
    (∀ d, buildTitleDoc ratings akas principals row = some d →
      d.tconst ≠ [] ∧ d.tconst ≠ sentinel) ∧
    (∀ d, buildNameDoc row = some d →
      d.nconst ≠ [] ∧ d.nconst ≠ sentinel ∧ d.primary_name ≠ []) := by
  refine ⟨?_, ?_, ?_, ?_⟩
  · rintro (h | h | h) <;> refine ⟨?_, ?_⟩ <;>
      first
      | (unfold buildTitleDoc; rw [h]; try (dsimp only; simp [sentinel]))
      | (unfold buildNameDoc; rw [h]; try (dsimp only; simp [sentinel]))
  · intro h2
    unfold buildTitleDoc
    cases h0 : row[0]? with
    | none => rfl
    | some t =>
      dsimp only
      by_cases ht : t = [] ∨ t = sentinel
      · rw [if_pos ht]
      · rw [if_neg ht, h2]
  · intro d hd
    unfold buildTitleDoc at hd
    cases h0 : row[0]? with
    | none => rw [h0] at hd; simp at hd
    | some t =>
      rw [h0] at hd
      dsimp only at hd
      by_cases ht : t = [] ∨ t = sentinel
      · rw [if_pos ht] at hd; simp at hd
      · rw [if_neg ht] at hd
        cases h2 : row[2]? with
        | none => rw [h2] at hd; simp at hd
        | some pt =>
          rw [h2] at hd
          dsimp only at hd
          have hrec := Option.some.inj hd
          push_neg at ht
          rw [← hrec]
          exact ⟨ht.1, ht.2⟩
  · intro d hd
    unfold buildNameDoc at hd
    cases h0 : row[0]? with
    | none => rw [h0] at hd; simp at hd
    | some nc =>
      rw [h0] at hd
      dsimp only at hd
      by_cases hn : nc = [] ∨ nc = sentinel
      · rw [if_pos hn] at hd; simp at hd
      · rw [if_neg hn] at hd
        by_cases hp : row[1]?.getD [] = []
        · rw [if_pos hp] at hd; simp at hd
        · rw [if_neg hp] at hd
          have hrec := Option.some.inj hd
          push_neg at hn
          rw [← hrec]
          exact ⟨hn.1, hn.2, hp⟩

/-- C5 counterexample: a row whose original title EQUALS its primary title
still gets the original added to the alias field, yielding the duplicate
`["Up", "Up"]` — refuting "the original name is added to the search-alias
field only when it is present and distinct from the primary name". -/
theorem C5_counterexample :
    ((buildTitleDoc (fun _ => none) (fun _ => none) (fun _ => none)
        ["tt2".toList, "movie".toList, "Up".toList, "Up".toList]).map
      (fun d => (d.original_title, d.search_titles))) =
      some (some "Up".toList, ["Up".toList, "Up".toList]) := by
  exact rfl

/-- The alias field of every built title document: primary first, then the
original name whenever present, then the deduplicated alternate titles, then
the principal-cast names. -/
lemma buildTitleDoc_shape (ratings : Str → Option (ℚ × ℤ))
    (akas principals : Str → Option (List Str)) (row : List Str)
    (d : TitleDoc) (hd : buildTitleDoc ratings akas principals row = some d) :
    d.search_titles =
      (d.primary_title :: (match d.original_title with
        | some o => [o] | none => [])) ++
      ((match akas d.tconst with
        | some akaTitles =>
          dedupAkas (d.primary_title :: (match d.original_title with
            | some o => [o] | none => [])) akaTitles
        | none => []) ++
      ((principals d.tconst).getD [])) := by
  unfold buildTitleDoc at hd
  cases h0 : row[0]? with
  | none => rw [h0] at hd; simp at hd
  | some t =>
    rw [h0] at hd
    dsimp only at hd
    by_cases ht : t = [] ∨ t = sentinel
    · rw [if_pos ht] at hd; simp at hd
    · rw [if_neg ht] at hd
      cases h2 : row[2]? with
      | none => rw [h2] at hd; simp at hd
      | some pt =>
        rw [h2] at hd
        dsimp only at hd
        have hrec := (Option.some.inj hd).symm
        subst hrec
        dsimp only
        cases hak : akas t with
        | none => simp
        | some akaTitles =>
          dsimp only
          rw [List.append_assoc]

/-- C5 (amended): the primary title always heads the alias field and the
original title follows whenever it is present — even when it equals the
primary title; each alternate title is then added only if not already a
member of the per-document alias set seeded with the primary and original
names, with case-sensitive (character-exact) membership and no duplicates
among the added alternates. -/
theorem C5_alias_field (ratings : Str → Option (ℚ × ℤ))
    (akas principals : Str → Option (List Str)) (row : List Str)
    (d : TitleDoc) (hd : buildTitleDoc ratings akas principals row = some d) :
    (∀ o, d.original_title = some o →
      d.search_titles.take 2 = [d.primary_title, o]) ∧
    (∀ akaTitles, akas d.tconst = some akaTitles →
      d.search_titles =
        (d.primary_title :: (match d.original_title with
          | some o => [o] | none => [])) ++
        (dedupAkas (d.primary_title :: (match d.original_title with
          | some o => [o] | none => [])) akaTitles ++
        ((principals d.tconst).getD []))) ∧
    (∀ seen l, (dedupAkas seen l).Nodup ∧
      ∀ a, a ∈ dedupAkas seen l ↔ a ∈ l ∧ a ∉ seen) := by
  have hshape := buildTitleDoc_shape ratings akas principals row d hd
  refine ⟨?_, ?_, fun seen l => ⟨dedupAkas_nodup l seen,
    fun a => mem_dedupAkas a l seen⟩⟩
  · intro o ho
    rw [hshape, ho]
    rfl
  · intro akaTitles hak
    rw [hshape, hak]

/-- C9: exact-id lookup, for titles and for people, answers a distinct
not-found error when no document carries the id (never an empty result list,
never an internal error), and returns the unique document carrying the id
when it is present. -/
theorem C9_by_id_lookup (tindex : List TitleDoc) (nindex : List NameDoc)
    (t n : Str) :
    ((∀ d ∈ tindex, d.tconst ≠ t) →
      get_title_by_id tindex t =
        .error (.notFound "title not found".toList)) ∧
    (∀ d ∈ tindex, d.tconst = t → (tindex.map TitleDoc.tconst).Nodup →
      get_title_by_id tindex t = .ok (document_to_title_result d)) ∧
    ((∀ d ∈ nindex, d.nconst ≠ n) →
      get_name_by_id nindex n =
        .error (.notFound "name not found".toList)) ∧
    (∀ d ∈ nindex, d.nconst = n → (nindex.map NameDoc.nconst).Nodup →
      get_name_by_id nindex n = .ok (document_to_name_result d)) := by
  refine ⟨?_, ?_, ?_, ?_⟩
  · intro habsent
    unfold get_title_by_id
    rw [show (fun d => termMatches d TField.tconst t) =
      (fun x => TitleDoc.tconst x == t) from rfl]
    rw [filter_key_empty TitleDoc.tconst tindex t habsent]
    rfl
  · intro d hmem hkey hnodup
    unfold get_title_by_id
    rw [show (fun d => termMatches d TField.tconst t) =
      (fun x => TitleDoc.tconst x == t) from rfl]
    rw [filter_key_take_one TitleDoc.tconst tindex t d hmem hkey hnodup]
  · intro habsent
    unfold get_name_by_id
    rw [show (fun d => nameTermMatches d NField.nconst n) =
      (fun x => NameDoc.nconst x == n) from rfl]
    rw [filter_key_empty NameDoc.nconst nindex n habsent]
    rfl
  · intro d hmem hkey hnodup
    unfold get_name_by_id
    rw [show (fun d => nameTermMatches d NField.nconst n) =
      (fun x => NameDoc.nconst x == n) from rfl]
    rw [filter_key_take_one NameDoc.nconst nindex n d hmem hkey hnodup]

/-- Witness for C9: in a two-document title index, the absent id answers
not-found and the present id returns its document; likewise for a name
index. -/
theorem C9_witness :
    get_title_by_id
        [{ tconst := "tt1".toList, title_type := "movie".toList,
           primary_title := "A".toList, original_title := none,
           start_year := none, genres := [], average_rating := none,
           num_votes := none, search_titles := ["A".toList] }]
        "tt9".toList = .error (.notFound "title not found".toList) ∧
    get_title_by_id
        [{ tconst := "tt1".toList, title_type := "movie".toList,
           primary_title := "A".toList, original_title := none,
           start_year := none, genres := [], average_rating := none,
           num_votes := none, search_titles := ["A".toList] }]
        "tt1".toList =
      .ok (document_to_title_result
        { tconst := "tt1".toList, title_type := "movie".toList,
          primary_title := "A".toList, original_title := none,
          start_year := none, genres := [], average_rating := none,
          num_votes := none, search_titles := ["A".toList] }) ∧
    get_name_by_id
        [{ nconst := "nm1".toList, primary_name := "B".toList,
           primary_name_search := ["B".toList], birth_year := none,
           death_year := none, primary_profession := none,
           known_for_titles := none }]
        "nm9".toList = .error (.notFound "name not found".toList) :=
  ⟨(C9_by_id_lookup _ [] "tt9".toList "nm9".toList).1 (by decide),
   (C9_by_id_lookup _ [] "tt1".toList "nm9".toList).2.1 _ (by decide)
     (by decide) (by decide),
   (C9_by_id_lookup [] _ "tt9".toList "nm9".toList).2.2.1 (by decide)⟩

/-- Witness for C4 (amended): a sentinel id is skipped by both builders, and
a title row without a primary-title column is skipped. -/
theorem C4_witness :
    buildTitleDoc (fun _ => none) (fun _ => none) (fun _ => none)
      ["\\N".toList] = none ∧
    buildNameDoc ["\\N".toList] = none ∧
    buildTitleDoc (fun _ => none) (fun _ => none) (fun _ => none)
      ["tt1".toList, "movie".toList] = none :=
  ⟨((C4_skip_guards (fun _ => none) (fun _ => none) (fun _ => none)
      ["\\N".toList]).1 (Or.inr (Or.inr rfl))).1,
   ((C4_skip_guards (fun _ => none) (fun _ => none) (fun _ => none)
      ["\\N".toList]).1 (Or.inr (Or.inr rfl))).2,
   (C4_skip_guards (fun _ => none) (fun _ => none) (fun _ => none)
      ["tt1".toList, "movie".toList]).2.1 rfl⟩

/-- A title row carrying a distinct original title, for the C5 witness. -/
def c5row : List Str :=
  ["tt3".toList, "movie".toList, "Up".toList, "Oben".toList]

/-- The document `buildTitleDoc` produces from `c5row` with empty lookup
tables. -/
def c5doc : TitleDoc :=
  { tconst := "tt3".toList, title_type := "movie".toList,
    primary_title := "Up".toList, original_title := some "Oben".toList,
    start_year := none, genres := [], average_rating := none,
    num_votes := none, search_titles := ["Up".toList, "Oben".toList] }

/-- Witness for C5 (amended): the row with original title "Oben" yields
aliases headed by ["Up", "Oben"], and the dedup characterization holds on a
concrete case-sensitive instance ("UP" is not deduped against "Up"). -/
theorem C5_witness :
    c5doc.search_titles.take 2 = [c5doc.primary_title, "Oben".toList] ∧
    ((dedupAkas ["Up".toList] ["Up".toList, "UP".toList]).Nodup ∧
     ∀ a, a ∈ dedupAkas ["Up".toList] ["Up".toList, "UP".toList] ↔
       a ∈ ["Up".toList, "UP".toList] ∧ a ∉ ["Up".toList]) := by
  have h := C5_alias_field (fun _ => none) (fun _ => none) (fun _ => none)
    c5row c5doc (by decide)
  exact ⟨h.1 "Oben".toList (by decide),
    h.2.2 ["Up".toList] ["Up".toList, "UP".toList]⟩

/-- The two-genre request of the C3 scenario. -/
def c3params : TitleSearchParams :=
  { genres := ["action".toList, "drama".toList] }

/-- A movie carrying ONLY the genre "Action" (matching one of the two
requested genre values and every other clause of `c3params`). -/
def c3doc : TitleDoc :=
  { tconst := "tt1".toList, title_type := "movie".toList,
    primary_title := "Edge".toList, original_title := none,
    start_year := some 2000, genres := ["Action".toList],
    average_rating := none, num_votes := none,
    search_titles := ["Edge".toList] }

/-- A movie carrying both requested genres, used in the C3 witness. -/
def c3doc2 : TitleDoc :=
  { tconst := "tt2".toList, title_type := "movie".toList,
    primary_title := "Both".toList, original_title := none,
    start_year := some 2000, genres := ["Action".toList, "Drama".toList],
    average_rating := none, num_votes := none,
    search_titles := ["Both".toList] }

/-- C3 counterexample: for the request with the two genre values
["action", "drama"], the document `c3doc` matches the "action" genre term,
the (OR-ed) default title-type sub-clause, and the default start-year range —
i.e. one supplied value of the genre filter and all other clauses — yet does
NOT satisfy the composed query (it does satisfy the one-genre request), so
the genre values are AND-ed, not OR-ed. -/
theorem C3_counterexample :
    termMatches c3doc TField.genres "action".toList = true ∧
    satisfies (titleMatcher (fun _ _ => false)) c3doc
      (Query.boolean
        [(TOccur.should, Query.term TField.titleType "movie".toList),
         (TOccur.should, Query.term TField.titleType "tvSeries".toList)]) =
      true ∧
    satisfies (titleMatcher (fun _ _ => false)) c3doc
      (Query.rangeI TField.startYear (some 1980) none) = true ∧
    satisfies (titleMatcher (fun _ _ => false)) c3doc
      (composeTitleQuery { genres := ["action".toList] }) = true ∧
    satisfies (titleMatcher (fun _ _ => false)) c3doc
      (composeTitleQuery c3params) = false := by
  refine ⟨by decide, by decide, by decide, by decide, by decide⟩

/-- C3 (amended): only the multi-valued title-type filter (the movie/tvSeries
default) is expanded into an OR-group of `Should` term clauses required as a
whole; the genre filter and the profession filter push each non-empty value
as its OWN required term clause, so a document satisfying the composed query
must match EVERY supplied genre/profession value, not just one. -/
theorem C3_filter_value_composition (m : Matcher TField TitleDoc)
    (d : TitleDoc) (p : TitleSearchParams) :
    (satisfies m d (Query.boolean
        [(TOccur.should, Query.term TField.titleType "movie".toList),
         (TOccur.should, Query.term TField.titleType "tvSeries".toList)]) =
      (m.term d TField.titleType "movie".toList ||
        m.term d TField.titleType "tvSeries".toList)) ∧
    (p.title_type = none →
      (TOccur.must, Query.boolean
        [(TOccur.should, Query.term TField.titleType "movie".toList),
         (TOccur.should, Query.term TField.titleType "tvSeries".toList)]) ∈
        composeTitleClauses p) ∧
    (∀ g, g ∈ p.genres → g ≠ [] →
      satisfies m d (composeTitleQuery p) = true →
      m.term d TField.genres g = true) ∧
    (∀ (mn : Matcher NField NameDoc) (dn : NameDoc) (pn : NameSearchParams)
      (v : Str), v ∈ pn.primary_profession → v ≠ [] →
      satisfies mn dn (composeNameQuery pn) = true →
      mn.term dn NField.primaryProfession v = true) := by
  refine ⟨?_, ?_, ?_, ?_⟩
  · simp [satisfies, satMusts, satShoulds]
  · intro hp
    unfold composeTitleClauses
    dsimp only
    apply List.mem_append.mpr; refine Or.inl ?_
    apply List.mem_append.mpr; refine Or.inl ?_
    apply List.mem_append.mpr; refine Or.inl ?_
    apply List.mem_append.mpr; refine Or.inl ?_
    apply List.mem_append.mpr; refine Or.inl ?_
    apply List.mem_append.mpr; refine Or.inr ?_
    rw [show titleTypesOf p = ["movie".toList, "tvSeries".toList] from by
      unfold titleTypesOf; rw [hp]]
    simp
  · intro g hg hgne hsat
    have hmem : (TOccur.must, Query.term TField.genres g) ∈
        composeTitleClauses p := by
      unfold composeTitleClauses
      dsimp only
      apply List.mem_append.mpr; refine Or.inr ?_
      exact List.mem_map.mpr
        ⟨g, List.mem_filter.mpr ⟨hg, by simp [hgne]⟩, rfl⟩
    unfold composeTitleQuery at hsat
    have hforced := satisfies_composed_forces m d (composeTitleClauses p)
      hsat (composeTitleClauses_all_must p)
      (TOccur.must, Query.term TField.genres g) hmem
    simpa [satisfies] using hforced
  · intro mn dn pn v hv hvne hsat
    have hmem : (TOccur.must, Query.term NField.primaryProfession v) ∈
        composeNameClauses pn := by
      unfold composeNameClauses
      dsimp only
      apply List.mem_append.mpr; refine Or.inr ?_
      exact List.mem_map.mpr
        ⟨v, List.mem_filter.mpr ⟨hv, by simp [hvne]⟩, rfl⟩
    unfold composeNameQuery at hsat
    have hforced := satisfies_composed_forces mn dn (composeNameClauses pn)
      hsat (composeNameClauses_all_must pn)
      (TOccur.must, Query.term NField.primaryProfession v) hmem
    simpa [satisfies] using hforced

/-- Witness for C3 (amended): the default title-type OR-clause is among the
clauses of the two-genre request, and a document satisfying that composed
query is forced to match the "drama" genre term. -/
theorem C3_witness :
    ((TOccur.must, Query.boolean
        [(TOccur.should, Query.term TField.titleType "movie".toList),
         (TOccur.should, Query.term TField.titleType "tvSeries".toList)]) ∈
      composeTitleClauses c3params) ∧
    termMatches c3doc2 TField.genres "drama".toList = true := by
  have h := C3_filter_value_composition (titleMatcher (fun _ _ => false))
    c3doc2 c3params
  exact ⟨h.2.1 rfl, h.2.2.1 "drama".toList (by decide) (by decide) (by decide)⟩

end ImdbRs
